import Mathlib

/-!
Shallow embedding of `audio/audio_hw.c` (Amazon OMAP4 audio HAL).

The C file implements one output stream and one input stream over a fixed-rate
PCM endpoint, with a device coordinator (`struct audio_device`), standby
lifecycle, a rate converter on both paths, a pull-based buffer provider for
the input path, and device routing over a static `dev_names` table.

Machine integers are modelled as `Nat` with explicit `% 2^32` where unsigned
32-bit wraparound matters (`size_t`/`unsigned int` on the 32-bit OMAP4
target).  External collaborators (tinyalsa, the resampler library) are
modelled as environment parameters: each call site receives the collaborator's
result as an explicit argument, and the embedding reproduces exactly what the
C code does with that result.
-/

namespace AudioHw

/-! ### Constants from the C header section -/

def ABE_BASE_FRAME_COUNT : Nat := 24
def SHORT_PERIOD_MULTIPLIER : Nat := 40
def SHORT_PERIOD_SIZE : Nat := ABE_BASE_FRAME_COUNT * SHORT_PERIOD_MULTIPLIER
def LONG_PERIOD_MULTIPLIER : Nat := 2
def LONG_PERIOD_SIZE : Nat := SHORT_PERIOD_SIZE * LONG_PERIOD_MULTIPLIER
def PLAYBACK_PERIOD_COUNT : Nat := 4
def CAPTURE_PERIOD_COUNT : Nat := 2
def OUT_SAMPLING_RATE : Nat := 44100
def MM_FULL_POWER_SAMPLING_RATE : Nat := 48000
def SCO_PERIOD_SIZE : Nat := 256
def SCO_PERIOD_COUNT : Nat := 4
def SCO_SAMPLING_RATE : Nat := 8000
def MIN_WRITE_SLEEP_US : Nat := 5000
def RESAMPLER_BUFFER_FRAMES : Nat := SHORT_PERIOD_SIZE * 2
def RESAMPLER_BUFFER_SIZE : Nat := 4 * RESAMPLER_BUFFER_FRAMES

/-- errno values used by the file (`-EPIPE` etc. are the negations). -/
def EPIPE : Int := 32
def ENOMEM : Int := 12
def ENODEV : Int := 19
def EINVAL : Int := 22

/-! ### Device bitmask constants (values from `system/audio.h` of this era,
matching the hex values in the `dev_names` comments of the source). -/

def AUDIO_DEVICE_BIT_IN : Nat := 0x80000000
def AUDIO_DEVICE_OUT_EARPIECE : Nat := 0x1
def AUDIO_DEVICE_OUT_SPEAKER : Nat := 0x2
def AUDIO_DEVICE_OUT_WIRED_HEADSET : Nat := 0x4
def AUDIO_DEVICE_OUT_WIRED_HEADPHONE : Nat := 0x8
def AUDIO_DEVICE_OUT_AUX_DIGITAL : Nat := 0x400
def AUDIO_DEVICE_OUT_ANLG_DOCK_HEADSET : Nat := 0x800
def AUDIO_DEVICE_OUT_DGTL_DOCK_HEADSET : Nat := 0x1000
def AUDIO_DEVICE_OUT_ALL_SCO : Nat := 0x70
def AUDIO_DEVICE_IN_COMMUNICATION : Nat := 0x80000001
def AUDIO_DEVICE_IN_AMBIENT : Nat := 0x80000002
def AUDIO_DEVICE_IN_BUILTIN_MIC : Nat := 0x80000004
def AUDIO_DEVICE_IN_WIRED_HEADSET : Nat := 0x80000010
def AUDIO_DEVICE_IN_AUX_DIGITAL : Nat := 0x80000020
def AUDIO_DEVICE_IN_BACK_MIC : Nat := 0x80000080
def AUDIO_DEVICE_IN_ALL_SCO : Nat := 0x80000008

/-- Unsigned 32-bit subtraction `a - b` as the C code performs it on
`unsigned int`/`size_t` values (two's-complement wraparound). -/
def sub32 (a b : Nat) : Nat := (a + (2 ^ 32 - b % 2 ^ 32)) % 2 ^ 32

/-! ### `struct pcm_config` and the five static configurations -/

structure PcmConfig where
  channels : Nat
  rate : Nat
  period_size : Nat
  period_count : Nat
  start_threshold : Nat
  avail_min : Nat
deriving DecidableEq, Repr

def pcm_config_out : PcmConfig :=
  { channels := 2, rate := OUT_SAMPLING_RATE, period_size := SHORT_PERIOD_SIZE
    period_count := PLAYBACK_PERIOD_COUNT, start_threshold := 0, avail_min := 0 }

def pcm_config_out_lp : PcmConfig :=
  { channels := 2, rate := OUT_SAMPLING_RATE, period_size := LONG_PERIOD_SIZE
    period_count := PLAYBACK_PERIOD_COUNT, start_threshold := 0, avail_min := 0 }

def pcm_config_in : PcmConfig :=
  { channels := 2, rate := OUT_SAMPLING_RATE, period_size := SHORT_PERIOD_SIZE
    period_count := CAPTURE_PERIOD_COUNT, start_threshold := 0, avail_min := 0 }

def pcm_config_sco : PcmConfig :=
  { channels := 1, rate := SCO_SAMPLING_RATE, period_size := SCO_PERIOD_SIZE
    period_count := SCO_PERIOD_COUNT, start_threshold := 0, avail_min := 0 }

def pcm_config_hdmi : PcmConfig :=
  { channels := 2, rate := 48000, period_size := LONG_PERIOD_SIZE
    period_count := PLAYBACK_PERIOD_COUNT, start_threshold := LONG_PERIOD_SIZE * 2
    avail_min := 0 }

/-! ### Stream and coordinator state -/

/-- A `struct pcm *` value: the NULL pointer or a handle.  `pcm_open` in
tinyalsa returns a non-NULL object whose readiness is checked with
`pcm_is_ready`; the C code keeps the pointer in the stream struct in both
cases. -/
inductive Pcm
  | null
  | h (id : Nat)
deriving DecidableEq, Repr

/-- Fields of `struct stream_out` relevant to the control and data paths.
`resampler`/`buffer` ownership is abstracted to the flag `hasResampler`
(both are allocated together on the lazy-creation path of `out_write`). -/
structure StreamOut where
  pcm : Pcm
  pcm_config : PcmConfig
  standby : Bool
  hasResampler : Bool
  write_threshold : Nat
  low_power : Bool
deriving DecidableEq, Repr

/-- Fields of `struct stream_in` relevant to the control path and the
buffer-provider protocol. -/
structure StreamIn where
  pcm : Pcm
  pcm_config : PcmConfig
  standby : Bool
  requested_rate : Nat
  hasResampler : Bool
  frames_in : Nat
  read_status : Int
deriving DecidableEq, Repr

/-- The coordinator (`struct audio_device`) together with the (at most one)
output stream and (at most one) input stream it can reference.
`active_out`/`active_in` model whether `adev->active_out`/`adev->active_in`
point at the respective stream (vs. NULL). -/
structure Sys where
  out_device : Nat
  in_device : Nat
  mic_mute : Bool
  adev_low_power : Bool
  outS : StreamOut
  inS : StreamIn
  active_out : Bool
  active_in : Bool
deriving DecidableEq, Repr

/-! ### The routing table and `select_devices` -/

structure DevName where
  mask : Nat
  output_flag : Bool
  name : String
deriving DecidableEq, Repr

/-- The `dev_names` table, in source order (including the duplicated
headphone entry). -/
def dev_names : List DevName :=
  [ ⟨AUDIO_DEVICE_OUT_EARPIECE, true, "earpiece"⟩,
    ⟨AUDIO_DEVICE_OUT_SPEAKER, true, "speaker"⟩,
    ⟨AUDIO_DEVICE_OUT_WIRED_HEADSET ||| AUDIO_DEVICE_OUT_WIRED_HEADPHONE, true, "headphone"⟩,
    ⟨AUDIO_DEVICE_OUT_WIRED_HEADSET ||| AUDIO_DEVICE_OUT_WIRED_HEADPHONE, true, "headphone"⟩,
    ⟨AUDIO_DEVICE_OUT_AUX_DIGITAL, true, "aux-digital-out"⟩,
    ⟨AUDIO_DEVICE_OUT_ANLG_DOCK_HEADSET, true, "analog-dock"⟩,
    ⟨AUDIO_DEVICE_OUT_DGTL_DOCK_HEADSET, true, "digital-dock"⟩,
    ⟨AUDIO_DEVICE_IN_COMMUNICATION, false, "comms"⟩,
    ⟨AUDIO_DEVICE_IN_AMBIENT, false, "ambient"⟩,
    ⟨AUDIO_DEVICE_IN_BUILTIN_MIC, false, "builtin-mic"⟩,
    ⟨AUDIO_DEVICE_IN_WIRED_HEADSET, false, "headset"⟩,
    ⟨AUDIO_DEVICE_IN_AUX_DIGITAL, false, "aux-digital-in"⟩,
    ⟨AUDIO_DEVICE_IN_BACK_MIC, false, "back-mic"⟩ ]

/-- The per-entry match test of `select_devices`: output entries compare the
output bitmask directly; input entries compare
`(adev->in_device - AUDIO_DEVICE_BIT_IN) & (mask - AUDIO_DEVICE_BIT_IN)`
with C unsigned subtraction. -/
def dev_matches (outDev inDev : Nat) (d : DevName) : Bool :=
  if d.output_flag then outDev &&& d.mask != 0
  else sub32 inDev AUDIO_DEVICE_BIT_IN &&& sub32 d.mask AUDIO_DEVICE_BIT_IN != 0

/-- `select_devices`: iterates the whole `dev_names` table in order with no
early exit and applies `audio_route_apply_path` for every matching entry.
Modelled as the ordered list of applied path names. -/
def select_devices (outDev inDev : Nat) : List String :=
  (dev_names.filter (dev_matches outDev inDev)).map DevName.name

/-- Spec-side match test (claim C5's wording): input bits compared after
clearing the IN-direction marker bit from both sides. -/
def dev_matches_spec (outDev inDev : Nat) (d : DevName) : Bool :=
  if d.output_flag then outDev &&& d.mask != 0
  else (inDev &&& (AUDIO_DEVICE_BIT_IN - 1)) &&& (d.mask &&& (AUDIO_DEVICE_BIT_IN - 1)) != 0

/-- Spec-side `select_devices` (claim C5's wording). -/
def select_devices_spec (outDev inDev : Nat) : List String :=
  (dev_names.filter (dev_matches_spec outDev inDev)).map DevName.name

/-! ### Standby helpers -/

/-- `do_out_standby`: if the stream is active, close the endpoint, null the
handle, clear the coordinator's active-output reference, mark standby. -/
def do_out_standby (s : Sys) : Sys :=
  if s.outS.standby then s
  else { s with outS := { s.outS with pcm := .null, standby := true }, active_out := false }

/-- `do_in_standby`: symmetric for the input stream. -/
def do_in_standby (s : Sys) : Sys :=
  if s.inS.standby then s
  else { s with inS := { s.inS with pcm := .null, standby := true }, active_in := false }

/-- `out_standby`: takes both locks, runs `do_out_standby`, returns 0. -/
def out_standby (s : Sys) : Sys × Int := (do_out_standby s, 0)

/-- `in_standby`: takes both locks, runs `do_in_standby`, returns 0. -/
def in_standby (s : Sys) : Sys × Int := (do_in_standby s, 0)

/-- `adev_close_output_stream`: forces standby, then releases the resampler
and the scratch buffer. -/
def adev_close_output_stream (s : Sys) : Sys :=
  let s1 := (out_standby s).1
  { s1 with outS := { s1.outS with hasResampler := false } }

/-- `adev_close_input_stream`: forces standby, then releases the resampler
and the raw buffer. -/
def adev_close_input_stream (s : Sys) : Sys :=
  let s1 := (in_standby s).1
  { s1 with inS := { s1.inS with hasResampler := false } }

/-! ### Stream start -/

/-- Outcome of `pcm_open`, supplied by the environment.  tinyalsa returns a
non-NULL object in either case; `ok` means `pcm_is_ready` holds, `notReady`
means the open failed (the C code then calls `pcm_close` on the handle,
without clearing the stream's `pcm` field). -/
inductive OpenOutcome
  | ok (id : Nat)
  | notReady (id : Nat)
deriving DecidableEq, Repr

/-- The incompatible-rate-family test as written in `start_output_stream`
and `start_input_stream`: the first argument is the rate of the stream being
started, the second the rate of the already-active opposite stream. -/
def rateIncompat (newRate oldRate : Nat) : Bool :=
  (newRate % 8000 == 0 && oldRate % 8000 != 0) ||
  (newRate % 11025 == 0 && oldRate % 11025 != 0)

/-- Claim C4's characterization of incompatible rate families: one rate
divisible by 8000 and the other not, or one divisible by 11025 and the
other not (symmetric). -/
def claimIncompat (a b : Nat) : Bool :=
  ((a % 8000 == 0) != (b % 8000 == 0)) || ((a % 11025 == 0) != (b % 11025 == 0))

/-- `start_output_stream` (must be called with both mutexes held):
selects geometry (HDMI config on the alternate card if the AUX_DIGITAL bit
is routed, otherwise long- or short-period thresholds per `low_power`),
forces an incompatible active input to standby, then opens the endpoint.
On open failure returns `-ENOMEM`, leaving `out->pcm` holding the closed
non-NULL handle just as the C code does. -/
def start_output_stream (oc : OpenOutcome) (s : Sys) : Sys × Int :=
  let out1 :=
    if s.out_device &&& AUDIO_DEVICE_OUT_AUX_DIGITAL != 0 then
      { s.outS with pcm_config := pcm_config_hdmi }
    else if s.outS.low_power then
      { s.outS with
        write_threshold := PLAYBACK_PERIOD_COUNT * LONG_PERIOD_SIZE,
        pcm_config := { s.outS.pcm_config with
          start_threshold := LONG_PERIOD_SIZE * 2, avail_min := LONG_PERIOD_SIZE } }
    else
      { s.outS with
        write_threshold := PLAYBACK_PERIOD_COUNT * SHORT_PERIOD_SIZE,
        pcm_config := { s.outS.pcm_config with
          start_threshold := SHORT_PERIOD_SIZE * 2, avail_min := SHORT_PERIOD_SIZE } }
  let s1 := { s with outS := out1 }
  let s2 :=
    if s1.active_in && rateIncompat out1.pcm_config.rate s1.inS.pcm_config.rate then
      do_in_standby s1
    else s1
  match oc with
  | .ok i => ({ s2 with outS := { s2.outS with pcm := .h i }, active_out := true }, 0)
  | .notReady i => ({ s2 with outS := { s2.outS with pcm := .h i } }, -ENOMEM)

/-- `start_input_stream`: selects the SCO geometry if the routed input
devices intersect the SCO class (tested with the same unsigned subtraction
as `select_devices`), else the default capture geometry; forces an
incompatible active output to standby; opens the endpoint; on success resets
the resampler and zeroes `frames_in`. -/
def start_input_stream (oc : OpenOutcome) (s : Sys) : Sys × Int :=
  let in1 :=
    if sub32 s.in_device AUDIO_DEVICE_BIT_IN &&&
        sub32 AUDIO_DEVICE_IN_ALL_SCO AUDIO_DEVICE_BIT_IN != 0 then
      { s.inS with pcm_config := pcm_config_sco }
    else
      { s.inS with pcm_config := pcm_config_in }
  let s1 := { s with inS := in1 }
  let s2 :=
    if s1.active_out && rateIncompat in1.pcm_config.rate s1.outS.pcm_config.rate then
      do_out_standby s1
    else s1
  match oc with
  | .ok i =>
      let s3 := { s2 with inS := { s2.inS with pcm := .h i }, active_in := true }
      if s3.inS.hasResampler then
        ({ s3 with inS := { s3.inS with frames_in := 0 } }, 0)
      else (s3, 0)
  | .notReady i => ({ s2 with inS := { s2.inS with pcm := .h i } }, -ENOMEM)

/-- The endpoint rate `start_output_stream` will select from state `s`
(HDMI config if the AUX_DIGITAL bit is routed, else the stream's current
config rate, which the non-HDMI branches leave unchanged). -/
def outRateSel (s : Sys) : Nat :=
  if s.out_device &&& AUDIO_DEVICE_OUT_AUX_DIGITAL != 0 then pcm_config_hdmi.rate
  else s.outS.pcm_config.rate

/-- The endpoint rate `start_input_stream` will select from state `s`. -/
def inRateSel (s : Sys) : Nat :=
  if sub32 s.in_device AUDIO_DEVICE_BIT_IN &&&
      sub32 AUDIO_DEVICE_IN_ALL_SCO AUDIO_DEVICE_BIT_IN != 0 then pcm_config_sco.rate
  else pcm_config_in.rate

/-! ### The write path (`out_write`) -/

/-- The two buffers visible in `out_write`'s data path: the caller-supplied
client buffer (`buffer` / `in_buffer` before resampling) and the stream's
owned scratch buffer (`out->buffer`). -/
inductive Buf
  | client
  | scratch
deriving DecidableEq, Repr

/-- Observable data-path actions of one `out_write` attempt. -/
inductive Effect
  | resampleInto (dst : Buf) (inFrames outFrames : Nat)
  | pcmWrite (src : Buf) (bytes : Nat)
deriving DecidableEq, Repr

/-- Behaviour of `resample_from_input` for one call, supplied by the
environment: given the available input frame count and the output capacity
(both in/out parameters in C), how many input frames are consumed and how
many output frames are produced. -/
structure ResamplerEnv where
  consumed : Nat → Nat → Nat
  produced : Nat → Nat → Nat

/-- Environment for one `out_write` attempt: the `pcm_open` outcome (used
only if the stream is in standby), whether the lazy
`create_resampler`+`malloc` pair succeeds, the resampler behaviour, and the
`pcm_mmap_write` return value. -/
structure OutEnv where
  openOc : OpenOutcome
  createOk : Bool
  rs : ResamplerEnv
  writeRet : Int

/-- The body of one `out_write` attempt after the standby check: channel
reduction (client stereo vs endpoint channels), lazy resampler creation and
resampling into the scratch buffer when the endpoint rate differs from
`OUT_SAMPLING_RATE`, then the `pcm_mmap_write` call.  The throttling loop
(`pcm_get_htimestamp` polling, skipped when SCO is routed) only sleeps and
is not modelled.  Faithful to the source, the block passed to
`pcm_mmap_write` is `buffer` — the client buffer — of `out_frames *
frame_size` bytes, even on the resampling path where the converted frames
sit in the scratch buffer. -/
def out_write_body (e : OutEnv) (s : Sys) (frame_size in_frames out_frames : Nat) :
    Sys × Int × List Effect :=
  -- popcount(out_get_channels) = popcount(AUDIO_CHANNEL_OUT_STEREO) = 2
  let frame_size := if 2 > s.outS.pcm_config.channels then frame_size / 2 else frame_size
  if s.outS.pcm_config.rate != OUT_SAMPLING_RATE then
    if !s.outS.hasResampler && !e.createOk then
      -- create_resampler or malloc failed: goto exit with a nonzero status
      -- (-ENOMEM for the malloc; create_resampler also fails with a
      -- non-EPIPE negative status)
      (s, -ENOMEM, [])
    else
      let s := { s with outS := { s.outS with hasResampler := true } }
      let consumed := e.rs.consumed in_frames out_frames
      let produced := e.rs.produced in_frames out_frames
      -- resample_from_input(resampler, in_buffer, &in_frames, out->buffer,
      -- &out_frames); in_buffer = out->buffer; then
      -- ret = pcm_mmap_write(out->pcm, buffer, out_frames * frame_size)
      (s, e.writeRet,
        [Effect.resampleInto .scratch consumed produced,
         Effect.pcmWrite .client (produced * frame_size)])
  else
    (s, e.writeRet, [Effect.pcmWrite .client (in_frames * frame_size)])

/-- One `out_write` attempt (the code between `do_over:` and the `-EPIPE`
check): start the stream if it is in standby (on failure, go to `exit` with
the start status), then run the data path. -/
def out_write_attempt (e : OutEnv) (s : Sys) (bytes : Nat) : Sys × Int × List Effect :=
  let frame_size := 4  -- audio_stream_frame_size: stereo, 16-bit
  let in_frames := bytes / frame_size
  let out_frames := RESAMPLER_BUFFER_SIZE / frame_size
  if s.outS.standby then
    let (s1, r) := start_output_stream e.openOc s
    if r != 0 then (s1, r, [])
    else
      out_write_body e { s1 with outS := { s1.outS with standby := false } }
        frame_size in_frames out_frames
  else out_write_body e s frame_size in_frames out_frames

/-- `out_write`: runs attempts until one does not end in `-EPIPE`; every
`-EPIPE` forces the stream to standby (`do_out_standby`) and retries the
whole write (`goto do_over`) with no retry limit.  Any non-EPIPE outcome —
success, failed open, or another write error (after a compensating sleep) —
makes the call return the full requested byte count.  The result carries the
final state, the returned value, the number of EPIPE recoveries performed,
and the accumulated data-path effects; `none` means the supplied environment
trace ran out while the endpoint still reported EPIPE. -/
def out_write : List OutEnv → Sys → Nat → Option (Sys × Int × Nat × List Effect)
  | [], _, _ => none
  | e :: rest, s, bytes =>
    let (s1, r, effs) := out_write_attempt e s bytes
    if r == -EPIPE then
      match out_write rest (do_out_standby s1) bytes with
      | some (s', rv, k, effs') => some (s', rv, k + 1, effs ++ effs')
      | none => none
    else
      some (s1, (bytes : Int), 0, effs)

/-- Projection of an `out_write` result used in theorem statements:
(returned value, number of EPIPE recoveries, final standby flag). -/
def outWriteSummary (r : Sys × Int × Nat × List Effect) : Int × Nat × Bool :=
  (r.2.1, r.2.2.1, r.1.outS.standby)

/-- Projection of an `out_write` result onto its data-path effects. -/
def outWriteEffects (r : Sys × Int × Nat × List Effect) : List Effect := r.2.2.2

/-- Projection of an `out_write` result onto the coordinator's
active-output flag in the final state. -/
def outWriteActive (r : Sys × Int × Nat × List Effect) : Bool := r.1.active_out

/-! ### `out_get_latency` -/

/-- `out_get_latency` as written: always the fixed short period size and
playback period count over the stream's endpoint rate. -/
def out_get_latency (out : StreamOut) : Nat :=
  (SHORT_PERIOD_SIZE * PLAYBACK_PERIOD_COUNT * 1000) / out.pcm_config.rate

/-- Claim C9's formula: the stream's own negotiated period geometry over its
endpoint rate. -/
def out_get_latency_claim (out : StreamOut) : Nat :=
  (out.pcm_config.period_size * out.pcm_config.period_count * 1000) / out.pcm_config.rate

/-! ### The buffer-provider protocol (`get_next_buffer` / `release_buffer`) -/

/-- `get_next_buffer`, given the `pcm_read` status the environment would
return for a hardware read (`readRet`) and the requested `frame_count`.
Returns the updated stream, the granted `frame_count`, the returned status,
and whether a hardware read (of exactly one period, i.e.
`pcm_config.channels * pcm_config.period_size * hw_frame_size` bytes) was
performed.  The stereo right-channel discard loop only rewrites buffer
contents and is not modelled. -/
def get_next_buffer (readRet : Int) (req : Nat) (t : StreamIn) :
    StreamIn × Nat × Int × Bool :=
  if t.pcm = .null then
    ({ t with read_status := -ENODEV }, 0, -ENODEV, false)
  else if t.frames_in = 0 then
    if readRet != 0 then
      ({ t with read_status := readRet }, 0, readRet, true)
    else
      let t1 := { t with read_status := 0, frames_in := t.pcm_config.period_size }
      (t1, min req t1.frames_in, 0, true)
  else
    (t, min req t.frames_in, t.read_status, false)

/-- `release_buffer`: `in->frames_in -= buffer->frame_count`, a `size_t`
subtraction (32-bit wraparound on this target). -/
def release_buffer (consumed : Nat) (t : StreamIn) : StreamIn :=
  { t with frames_in := sub32 t.frames_in consumed }

/-- A pull sequence as driven by the resampler: any number of
`get_next_buffer`/`release_buffer` pairs in which the consumer releases at
most the granted frame count (the resampler's side of the buffer-provider
contract). -/
inductive PullSeq : StreamIn → StreamIn → Prop
  | refl (t : StreamIn) : PullSeq t t
  | step {s t u : StreamIn} (readRet : Int) (req c : Nat)
      (hp : PullSeq s t)
      (hc : c ≤ (get_next_buffer readRet req t).2.1)
      (hu : u = release_buffer c (get_next_buffer readRet req t).1) :
      PullSeq s u

/-! ### The read path (`in_read`) -/

/-- Environment for one `in_read` call: the `pcm_open` outcome (used only if
the stream is in standby), the status of the capture step
(`read_frames`/`pcm_read`, whose detailed buffering is modelled separately
by `get_next_buffer`/`release_buffer`), and the bytes that step leaves in
the client buffer. -/
structure InEnv where
  openOc : OpenOutcome
  readRet : Int
  captured : List Int

/-- The body of `in_read` after a successful standby check: run the capture
step, clamp a positive status to 0, and zero-fill the client buffer iff the
status is 0 and mic-mute is set.  The call always returns the requested
byte count (a failed capture only adds a compensating sleep at `exit`). -/
def in_read_body (e : InEnv) (s : Sys) (bytes : Nat) : Sys × Int × List Int :=
  let ret := e.readRet
  let buf1 := e.captured
  let ret := if ret > 0 then 0 else ret
  if ret == 0 && s.mic_mute then
    (s, (bytes : Int), List.replicate bytes 0)
  else
    (s, (bytes : Int), buf1)

/-- `in_read`: start the stream if it is in standby (on failure go to
`exit`: compensating sleep, client buffer untouched, still return the
requested byte count), else run the body. -/
def in_read (e : InEnv) (s : Sys) (bytes : Nat) (buf : List Int) : Sys × Int × List Int :=
  if s.inS.standby then
    let (s1, r) := start_input_stream e.openOc s
    if r == 0 then
      in_read_body e { s1 with inS := { s1.inS with standby := false } } bytes
    else
      (s1, (bytes : Int), buf)
  else in_read_body e s bytes

/-! ### Invariants for claim C6 -/

/-- The direction of the handle/standby invariant that the code does keep:
a NULL handle is only ever seen on a stream in standby (equivalently, an
active stream always holds a non-NULL handle). -/
def NullImpStandby (s : Sys) : Prop :=
  (s.outS.pcm = .null → s.outS.standby = true) ∧
  (s.inS.pcm = .null → s.inS.standby = true)

/-- Claim C6's full equivalence: the handle is NULL exactly when the stream
is in standby, for both streams. -/
def PcmStandbyEquiv (s : Sys) : Prop :=
  (s.outS.pcm = .null ↔ s.outS.standby = true) ∧
  (s.inS.pcm = .null ↔ s.inS.standby = true)

instance (s : Sys) : Decidable (NullImpStandby s) := by
  unfold NullImpStandby; infer_instance

instance (s : Sys) : Decidable (PcmStandbyEquiv s) := by
  unfold PcmStandbyEquiv; infer_instance

/-- All endpoint opens in an `out_write` environment trace succeed. -/
def AllOkOut (es : List OutEnv) : Prop :=
  ∀ e ∈ es, ∃ i, e.openOc = .ok i

/-! ### Concrete fixtures used to instantiate the theorems -/

/-- A fresh low-latency output stream as `adev_open_output_stream` builds it
(no deep-buffer flag). -/
def outStd : StreamOut :=
  { pcm := .null, pcm_config := pcm_config_out, standby := true
    hasResampler := false, write_threshold := 0, low_power := false }

/-- A fresh deep-buffer (low-power) output stream. -/
def outLp : StreamOut :=
  { outStd with pcm_config := pcm_config_out_lp, low_power := true }

/-- An output stream holding the HDMI geometry. -/
def outHdmi : StreamOut := { outStd with pcm_config := pcm_config_hdmi }

/-- A fresh input stream at the default 44100 requested rate. -/
def inStd : StreamIn :=
  { pcm := .null, pcm_config := pcm_config_in, standby := true
    requested_rate := 44100, hasResampler := false, frames_in := 0, read_status := 0 }

/-- System right after device open and stream creation: speaker routed out,
builtin mic routed in (`adev->in_device` stored with the IN bit cleared, as
`adev_open` does), both streams in standby. -/
def sys0 : Sys :=
  { out_device := AUDIO_DEVICE_OUT_SPEAKER, in_device := 4, mic_mute := false
    adev_low_power := false, outS := outStd, inS := inStd
    active_out := false, active_in := false }

/-- `sys0` with the HDMI output device routed. -/
def sysHdmi : Sys := { sys0 with out_device := AUDIO_DEVICE_OUT_AUX_DIGITAL }

/-- A dummy value used only as the `Option.getD` default in closed
statements; never reachable there. -/
def sysDummy : Sys := sys0

/-- A plausible 44100→48000 resampler behaviour: consume all input, produce
up to capacity at the converted count. -/
def idRs : ResamplerEnv :=
  { consumed := fun a _ => a
    produced := fun a c => min c (a * MM_FULL_POWER_SAMPLING_RATE / OUT_SAMPLING_RATE) }

/-- Attempt environment whose endpoint write reports a broken pipe. -/
def epipeEnv : OutEnv := { openOc := .ok 0, createOk := true, rs := idRs, writeRet := -EPIPE }

/-- Attempt environment whose endpoint write succeeds. -/
def succEnv : OutEnv := { openOc := .ok 0, createOk := true, rs := idRs, writeRet := 0 }

/-- Attempt environment whose endpoint open fails (`pcm_is_ready` false). -/
def openFailEnv : OutEnv := { openOc := .notReady 7, createOk := true, rs := idRs, writeRet := 0 }

/-- Environment for the HDMI write example: open succeeds, lazy resampler
creation succeeds, write succeeds. -/
def hdmiWriteEnv : OutEnv := { openOc := .ok 5, createOk := true, rs := idRs, writeRet := 0 }

/-- System with an active (non-standby) output stream. -/
def sysOutUp : Sys :=
  { sys0 with outS := { outStd with standby := false, pcm := .h 3 }, active_out := true }

/-- System with SCO routed on the input side while the 44100-family output
is active: starting the input must force the output to standby. -/
def sysScoIn : Sys := { sysOutUp with in_device := 8 }

/-- System with an active input stream and mic-mute asserted. -/
def sysMicMuted : Sys :=
  { sys0 with
    mic_mute := true
    inS := { inStd with standby := false, pcm := .h 0 }
    active_in := true }

/-- `in_read` environment whose capture step fails with `-EIO`. -/
def inFailEnv : InEnv := { openOc := .ok 0, readRet := -5, captured := [7] }

/-- `in_read` environment whose capture step succeeds. -/
def inOkEnv : InEnv := { openOc := .ok 0, readRet := 0, captured := [7] }

/-- An input stream with an open endpoint and an empty frame buffer. -/
def inUp : StreamIn := { inStd with pcm := .h 0 }

/-! ## Theorems -/

/-! ### Shared bit-arithmetic lemmas (for `select_devices`) -/

theorem sub32_land_small (x c : Nat) (hc : c < 2 ^ 31) :
    sub32 x AUDIO_DEVICE_BIT_IN &&& c = (x &&& (AUDIO_DEVICE_BIT_IN - 1)) &&& c := by
  have hb : (AUDIO_DEVICE_BIT_IN : Nat) = 2 ^ 31 := by norm_num [AUDIO_DEVICE_BIT_IN]
  have hd : sub32 x AUDIO_DEVICE_BIT_IN = (x + 2 ^ 31) % 2 ^ 32 := by
    rw [sub32, hb]; norm_num
  rw [hd, hb]
  apply Nat.eq_of_testBit_eq
  intro i
  rcases lt_or_ge i 31 with hi | hi
  · have h32 : i < 32 := by omega
    have hlow : (x + 2 ^ 31).testBit i = x.testBit i := by
      have h1 : ((x + 2 ^ 31) % 2 ^ 31).testBit i = (x % 2 ^ 31).testBit i := by
        rw [Nat.add_mod_right]
      rw [Nat.testBit_mod_two_pow, Nat.testBit_mod_two_pow] at h1
      simpa [hi] using h1
    simp only [Nat.testBit_land, Nat.testBit_mod_two_pow, Nat.testBit_two_pow_sub_one, hlow]
    simp [hi, h32]
  · have hcb : c.testBit i = false :=
      Nat.testBit_lt_two_pow (lt_of_lt_of_le hc (Nat.pow_le_pow_right (by norm_num) hi))
    simp only [Nat.testBit_land, hcb, Bool.and_false]

theorem in_entry_match_eq (inDev m : Nat)
    (h1 : sub32 m AUDIO_DEVICE_BIT_IN = m &&& (AUDIO_DEVICE_BIT_IN - 1))
    (hc : m &&& (AUDIO_DEVICE_BIT_IN - 1) < 2 ^ 31) :
    (sub32 inDev AUDIO_DEVICE_BIT_IN &&& sub32 m AUDIO_DEVICE_BIT_IN != 0) =
      ((inDev &&& (AUDIO_DEVICE_BIT_IN - 1)) &&& (m &&& (AUDIO_DEVICE_BIT_IN - 1)) != 0) := by
  rw [h1, sub32_land_small inDev _ hc]

set_option maxRecDepth 4096 in
/-- C5: for every pair of device bitmasks, `select_devices` applies the
routing path of every matching table entry, iterating the full ordered table
with no early exit (both sides are defined as `filter` + `map` over the full
`dev_names` list, so order and apply-all-matches are definitional), and the
code's unsigned-subtraction input test agrees with the spec's
clear-the-IN-bit-on-both-sides test on every input bitmask. -/
theorem c5_select_devices_refines_spec (outDev inDev : Nat) :
    select_devices outDev inDev = select_devices_spec outDev inDev := by
  unfold select_devices select_devices_spec
  have h : dev_names.filter (dev_matches outDev inDev) =
      dev_names.filter (dev_matches_spec outDev inDev) := by
    refine List.filter_congr ?_
    intro d hd
    simp only [dev_names, List.mem_cons, List.not_mem_nil, or_false] at hd
    rcases hd with rfl | rfl | rfl | rfl | rfl | rfl | rfl | rfl | rfl | rfl | rfl | rfl | rfl <;>
      simp only [dev_matches, dev_matches_spec, reduceIte] <;>
      exact in_entry_match_eq inDev _ (by decide) (by decide)
  rw [h]

/-- C9 counterexample: for the low-power (deep-buffer) stream, the claim's
formula with the stream's long period size gives 174 ms, but the code always
uses `SHORT_PERIOD_SIZE` and returns 87 ms. -/
theorem c9_counterexample :
    out_get_latency outLp = 87 ∧ out_get_latency_claim outLp = 174 ∧
      out_get_latency outLp ≠ out_get_latency_claim outLp := by
  decide

/-- C9 (amended): `out_get_latency` computes
`(SHORT_PERIOD_SIZE * PLAYBACK_PERIOD_COUNT * 1000) / endpoint_rate`; only
the rate comes from the stream's negotiated config, the period geometry in
the formula is the fixed short-period one, so two streams at the same
endpoint rate report the same latency whatever their period geometry; in
particular both the short and the deep-buffer stream report 87 ms and the
HDMI stream 80 ms. -/
theorem c9_latency_uses_fixed_short_period :
    (∀ o : StreamOut,
      out_get_latency o =
        (pcm_config_out.period_size * PLAYBACK_PERIOD_COUNT * 1000) / o.pcm_config.rate)
    ∧ (∀ o1 o2 : StreamOut, o1.pcm_config.rate = o2.pcm_config.rate →
        out_get_latency o1 = out_get_latency o2)
    ∧ out_get_latency outStd = 87 ∧ out_get_latency outLp = 87 ∧
      out_get_latency outHdmi = 80 := by
  refine ⟨fun o => rfl, fun o1 o2 h => ?_, by decide, by decide, by decide⟩
  unfold out_get_latency
  rw [h]

/-- C9 witness: the deep-buffer and short-period streams share rate 44100,
so the theorem makes them report the same latency. -/
theorem c9_latency_uses_fixed_short_period_witness :
    outLp.pcm_config.rate = outStd.pcm_config.rate ∧
      out_get_latency outLp = out_get_latency outStd :=
  ⟨by decide, c9_latency_uses_fixed_short_period.2.1 outLp outStd (by decide)⟩

/-- C10: `out_standby` and `in_standby` are idempotent: on a stream already
in standby they change no stream or coordinator field and return 0; two
consecutive calls have the same effect as one. -/
theorem c10_standby_idempotent :
    (∀ s : Sys, s.outS.standby = true → out_standby s = (s, 0))
    ∧ (∀ s : Sys, s.inS.standby = true → in_standby s = (s, 0))
    ∧ (∀ s : Sys, (out_standby s).2 = 0 ∧ (in_standby s).2 = 0)
    ∧ (∀ s : Sys, do_out_standby (do_out_standby s) = do_out_standby s)
    ∧ (∀ s : Sys, do_in_standby (do_in_standby s) = do_in_standby s) := by
  refine ⟨fun s h => ?_, fun s h => ?_, fun s => ⟨rfl, rfl⟩, fun s => ?_, fun s => ?_⟩
  · simp [out_standby, do_out_standby, h]
  · simp [in_standby, do_in_standby, h]
  · by_cases h : s.outS.standby = true <;> simp [do_out_standby, h]
  · by_cases h : s.inS.standby = true <;> simp [do_in_standby, h]

/-- C10 witness: on the freshly created (standby) system, `out_standby` is
the identity and returns 0. -/
theorem c10_standby_idempotent_witness :
    sys0.outS.standby = true ∧ out_standby sys0 = (sys0, 0) :=
  ⟨by decide, c10_standby_idempotent.1 sys0 (by decide)⟩

/-! ### Helper lemmas about `start_output_stream` / `start_input_stream` -/

theorem start_output_ok_parts (i : Nat) (s : Sys) :
    (start_output_stream (.ok i) s).2 = 0 ∧
    (start_output_stream (.ok i) s).1.outS.pcm = .h i ∧
    (start_output_stream (.ok i) s).1.outS.standby = s.outS.standby ∧
    (start_output_stream (.ok i) s).1.active_out = true := by
  unfold start_output_stream
  split_ifs <;> simp [do_in_standby] <;> split_ifs <;> simp

theorem start_output_fail_parts (i : Nat) (s : Sys) :
    (start_output_stream (.notReady i) s).2 = -ENOMEM ∧
    (start_output_stream (.notReady i) s).1.outS.pcm = .h i ∧
    (start_output_stream (.notReady i) s).1.outS.standby = s.outS.standby ∧
    (start_output_stream (.notReady i) s).1.active_out = s.active_out := by
  unfold start_output_stream
  split_ifs <;> simp [do_in_standby] <;> split_ifs <;> simp

theorem start_input_ok_parts (i : Nat) (s : Sys) :
    (start_input_stream (.ok i) s).2 = 0 ∧
    (start_input_stream (.ok i) s).1.inS.pcm = .h i ∧
    (start_input_stream (.ok i) s).1.inS.standby = s.inS.standby ∧
    (start_input_stream (.ok i) s).1.active_in = true := by
  unfold start_input_stream
  split_ifs <;> simp [do_out_standby] <;> split_ifs <;> simp

theorem start_input_fail_parts (i : Nat) (s : Sys) :
    (start_input_stream (.notReady i) s).2 = -ENOMEM ∧
    (start_input_stream (.notReady i) s).1.inS.pcm = .h i ∧
    (start_input_stream (.notReady i) s).1.inS.standby = s.inS.standby ∧
    (start_input_stream (.notReady i) s).1.active_in = s.active_in := by
  unfold start_input_stream
  split_ifs <;> simp [do_out_standby] <;> split_ifs <;> simp

/-- The in-stream part of `start_output_stream`: either untouched (no active
input or compatible rate families) or forced through `do_in_standby`. -/
theorem start_output_in_part (oc : OpenOutcome) (s : Sys) :
    ((start_output_stream oc s).1.inS = s.inS ∧
      (start_output_stream oc s).1.active_in = s.active_in ∧
      (s.active_in && rateIncompat (outRateSel s) s.inS.pcm_config.rate) = false)
    ∨ ((start_output_stream oc s).1.inS = (do_in_standby s).inS ∧
      (start_output_stream oc s).1.active_in = (do_in_standby s).active_in ∧
      (s.active_in && rateIncompat (outRateSel s) s.inS.pcm_config.rate) = true) := by
  unfold start_output_stream outRateSel
  rcases oc with i | i <;>
    split_ifs <;> simp_all [do_in_standby] <;> split_ifs <;> simp_all

/-- The out-stream part of `start_input_stream`: either untouched (no active
output or compatible rate families) or forced through `do_out_standby`. -/
theorem start_input_out_part (oc : OpenOutcome) (s : Sys) :
    ((start_input_stream oc s).1.outS = s.outS ∧
      (start_input_stream oc s).1.active_out = s.active_out ∧
      (s.active_out && rateIncompat (inRateSel s) s.outS.pcm_config.rate) = false)
    ∨ ((start_input_stream oc s).1.outS = (do_out_standby s).outS ∧
      (start_input_stream oc s).1.active_out = (do_out_standby s).active_out ∧
      (s.active_out && rateIncompat (inRateSel s) s.outS.pcm_config.rate) = true) := by
  unfold start_input_stream inRateSel
  rcases oc with i | i <;>
    split_ifs <;> simp_all [do_out_standby] <;> split_ifs <;> simp_all

/-- C1 (code-bug exhibit): HDMI-routed stream, endpoint rate 48000 ≠ 44100,
one write of 16384 bytes = 4096 client frames.  The rate converter is
created lazily and converts the client frames into the stream's scratch
buffer (here producing 1920 endpoint frames, the scratch capacity), but the
block passed to `pcm_mmap_write` is the unconverted CLIENT buffer —
`out_frames * frame_size = 7680` bytes of it — because line 747 passes
`buffer` instead of `in_buffer` (which was just redirected to
`out->buffer`).  The converted block is computed and then never written,
contradicting both the spec and the code's own resampling intent. -/
theorem c1_unconverted_client_buffer_written :
    (out_write [hdmiWriteEnv] sysHdmi 16384).map outWriteEffects =
      some [Effect.resampleInto .scratch 4096 1920, Effect.pcmWrite .client 7680] := by
  decide

/-- C3 counterexample: stream in standby, `pcm_open` fails.  `out_write`
returns the full requested byte count 4096 (after a compensating sleep), not
a negative resource-exhaustion error, refuting the claim's "returns a
resource-exhaustion error to the caller (rather than the requested byte
count)".  The stream does stay in standby. -/
theorem c3_counterexample :
    (out_write [openFailEnv] sys0 4096).isSome = true ∧
    ((out_write [openFailEnv] sys0 4096).getD (sysDummy, 0, 0, [])).2.1 = (4096 : Int) ∧
    ((out_write [openFailEnv] sys0 4096).getD (sysDummy, 0, 0, [])).1.outS.standby = true := by
  decide

/-- C3 (amended): when `out_write` finds the stream in standby and the
endpoint open fails, the internal status is `-ENOMEM`
(resource exhaustion), the stream remains in standby and the coordinator's
active-output reference is unchanged — but the error is absorbed: the call
still returns the full requested byte count to the caller (after a
compensating sleep), with no EPIPE recovery. -/
theorem c3_open_failure_absorbed (s : Sys) (b : Nat) (e : OutEnv) (i : Nat)
    (hs : s.outS.standby = true) (he : e.openOc = .notReady i) :
    (out_write [e] s b).map outWriteSummary = some ((b : Int), 0, true) ∧
    (out_write [e] s b).map outWriteActive = some s.active_out ∧
    (start_output_stream e.openOc s).2 = -ENOMEM := by
  obtain ⟨hr, hpcm, hsb, hao⟩ := start_output_fail_parts i s
  have hatt : out_write_attempt e s b = ((start_output_stream (.notReady i) s).1, -ENOMEM, []) := by
    rw [out_write_attempt, he, hs]
    simp [hr, ENOMEM]
  rw [he]
  refine ⟨?_, ?_, hr⟩ <;>
    simp [out_write, hatt, outWriteSummary, outWriteActive, hsb, hs, hao, ENOMEM, EPIPE]

/-- C3 witness: instantiation of the amended theorem on the fresh standby
system with a failing open. -/
theorem c3_open_failure_absorbed_witness :
    sys0.outS.standby = true ∧
    (out_write [openFailEnv] sys0 4096).map outWriteSummary = some ((4096 : Int), 0, true) :=
  ⟨by decide,
    (c3_open_failure_absorbed sys0 4096 openFailEnv 7 (by decide) (by decide)).1⟩

/-- C8 counterexample: mic-mute asserted, capture step fails with `-EIO`.
The delivered buffer is the junk the failed read left (`[7]`), not the
zero-fill of the requested 4 bytes, because the `memset` is guarded by
`ret == 0`; the call still returns the requested byte count. -/
theorem c8_counterexample :
    sysMicMuted.mic_mute = true ∧
    (in_read inFailEnv sysMicMuted 4 [9, 9, 9, 9]).2.2 ≠ List.replicate 4 0 ∧
    (in_read inFailEnv sysMicMuted 4 [9, 9, 9, 9]).2.1 = 4 := by
  decide

/-- C8 (amended): with mic-mute asserted, the delivered buffer is zero-filled
over the full requested byte count whenever the capture step reports success
(status ≥ 0, clamped to 0); when the capture step fails the buffer is
delivered as the read left it, not zeroed; and in every case — success,
failure, even a failed endpoint open — `in_read` reports the requested byte
count to the caller. -/
theorem c8_mute_zero_fill :
    (∀ (e : InEnv) (s : Sys) (b : Nat) (buf : List Int),
      s.inS.standby = false → s.mic_mute = true → 0 ≤ e.readRet →
      in_read e s b buf = (s, (b : Int), List.replicate b 0))
    ∧ (∀ (e : InEnv) (s : Sys) (b : Nat) (buf : List Int),
      s.inS.standby = false → e.readRet < 0 →
      in_read e s b buf = (s, (b : Int), e.captured))
    ∧ (∀ (e : InEnv) (s : Sys) (b : Nat) (buf : List Int),
      (in_read e s b buf).2.1 = (b : Int)) := by
  refine ⟨fun e s b buf hsb hm hr => ?_, fun e s b buf hsb hr => ?_, fun e s b buf => ?_⟩
  · rw [in_read, hsb]
    simp only [Bool.false_eq_true, if_false, in_read_body, hm]
    rcases lt_or_eq_of_le hr with h | h
    · simp [h, not_lt.mpr (le_of_lt h)]
    · simp [← h]
  · rw [in_read, hsb]
    simp only [Bool.false_eq_true, if_false, in_read_body]
    have h1 : ¬ e.readRet > 0 := by omega
    have h2 : e.readRet ≠ 0 := by omega
    simp [h1, h2]
  · by_cases hsb : s.inS.standby
    · rw [in_read, if_pos hsb]
      rcases hoc : e.openOc with i | i
      · have h0 := (start_input_ok_parts i s).1
        rcases hst : start_input_stream (OpenOutcome.ok i) s with ⟨s1, r⟩
        rw [hst] at h0
        simp only at h0
        simp only [h0, in_read_body]
        split_ifs <;> rfl
      · have h0 := (start_input_fail_parts i s).1
        rcases hst : start_input_stream (OpenOutcome.notReady i) s with ⟨s1, r⟩
        rw [hst] at h0
        simp only at h0
        simp [h0, ENOMEM]
    · rw [in_read, if_neg hsb]
      simp only [in_read_body]
      split_ifs <;> rfl

/-- C8 witness: instantiation of the amended theorem: muted active stream
with a successful capture delivers the zero-filled buffer and reports the
requested count. -/
theorem c8_mute_zero_fill_witness :
    sysMicMuted.inS.standby = false ∧ sysMicMuted.mic_mute = true ∧
    in_read inOkEnv sysMicMuted 4 [9, 9, 9, 9] = (sysMicMuted, 4, List.replicate 4 0) :=
  ⟨by decide, by decide,
    c8_mute_zero_fill.1 inOkEnv sysMicMuted 4 [9, 9, 9, 9] (by decide) (by decide) (by decide)⟩

/-! ### Helper lemmas for the buffer-provider protocol -/

theorem gnb_pcm_config (rr : Int) (req : Nat) (t : StreamIn) :
    (get_next_buffer rr req t).1.pcm_config = t.pcm_config := by
  unfold get_next_buffer
  split_ifs <;> rfl

theorem gnb_frames_le (rr : Int) (req : Nat) (t : StreamIn)
    (h : t.frames_in ≤ t.pcm_config.period_size) :
    (get_next_buffer rr req t).1.frames_in ≤ t.pcm_config.period_size := by
  unfold get_next_buffer
  split_ifs <;> simp_all

theorem gnb_granted_le (rr : Int) (req : Nat) (t : StreamIn) :
    (get_next_buffer rr req t).2.1 ≤ (get_next_buffer rr req t).1.frames_in := by
  unfold get_next_buffer
  split_ifs <;> simp_all [min_le_right]

theorem release_frames_exact (c : Nat) (t : StreamIn) (hc : c ≤ t.frames_in)
    (hlt : t.frames_in < 2 ^ 32) :
    (release_buffer c t).frames_in = t.frames_in - c := by
  unfold release_buffer sub32
  have h32 : (2 : Nat) ^ 32 = 4294967296 := by norm_num
  simp only [h32] at *
  omega

theorem release_pcm_config (c : Nat) (t : StreamIn) :
    (release_buffer c t).pcm_config = t.pcm_config := rfl

/-- C7: the buffer-provider protocol.  (1) a hardware read happens only when
`frames_in` is zero; (2) a successful read on an open endpoint fills exactly
one period (`frames_in := period_size`); (3) the granted `frame_count` is
clamped to the buffered frames; (4) `release_buffer` decrements `frames_in`
by exactly the consumed count with no underflow when the consumer respects
the grant; and (5) across any pull sequence in which each release consumes
at most what the preceding `get_next_buffer` granted,
`frames_in ≤ period_size` is maintained (with the geometry unchanged), so
`0 ≤ frames_in ≤ period_size` holds throughout. -/
theorem c7_buffer_provider_invariant :
    (∀ (rr : Int) (req : Nat) (t : StreamIn),
      (get_next_buffer rr req t).2.2.2 = true → t.frames_in = 0)
    ∧ (∀ (rr : Int) (req : Nat) (t : StreamIn),
      rr = 0 → t.pcm ≠ .null → t.frames_in = 0 →
      (get_next_buffer rr req t).1.frames_in = t.pcm_config.period_size)
    ∧ (∀ (rr : Int) (req : Nat) (t : StreamIn),
      (get_next_buffer rr req t).2.1 ≤ (get_next_buffer rr req t).1.frames_in)
    ∧ (∀ (c : Nat) (t : StreamIn), c ≤ t.frames_in → t.frames_in < 2 ^ 32 →
      (release_buffer c t).frames_in = t.frames_in - c)
    ∧ (∀ (s t : StreamIn), PullSeq s t →
      s.frames_in ≤ s.pcm_config.period_size → s.pcm_config.period_size < 2 ^ 32 →
      t.frames_in ≤ t.pcm_config.period_size ∧ t.pcm_config = s.pcm_config) := by
  refine ⟨?_, ?_, gnb_granted_le, release_frames_exact, ?_⟩
  · intro rr req t h
    unfold get_next_buffer at h
    split_ifs at h <;> simp_all
  · intro rr req t hr hp h0
    unfold get_next_buffer
    split_ifs <;> simp_all
  · intro s t hp h1 h2
    induction hp with
    | refl => exact ⟨h1, rfl⟩
    | step rr req c hp hc hu ih =>
      rename_i t' u'
      obtain ⟨hle, hcfg⟩ := ih
      have hgc := gnb_pcm_config rr req t'
      have hfl : (get_next_buffer rr req t').1.frames_in ≤ t'.pcm_config.period_size :=
        gnb_frames_le rr req t' hle
      have hcle : c ≤ (get_next_buffer rr req t').1.frames_in :=
        le_trans hc (gnb_granted_le rr req t')
      have hlt : (get_next_buffer rr req t').1.frames_in < 2 ^ 32 := by
        calc (get_next_buffer rr req t').1.frames_in ≤ t'.pcm_config.period_size := hfl
        _ = s.pcm_config.period_size := by rw [hcfg]
        _ < 2 ^ 32 := h2
      subst hu
      constructor
      · rw [release_frames_exact c _ hcle hlt, release_pcm_config, hgc]
        exact le_trans (Nat.sub_le _ _) hfl
      · rw [release_pcm_config, hgc, hcfg]

/-! ### Helper lemmas about `out_write` attempts -/

theorem out_write_body_parts (e : OutEnv) (hc : e.createOk = true) (s : Sys)
    (fs inf outf : Nat) :
    (out_write_body e s fs inf outf).2.1 = e.writeRet ∧
    (out_write_body e s fs inf outf).1.outS.standby = s.outS.standby := by
  unfold out_write_body
  split_ifs <;> simp_all

theorem out_write_attempt_ok_parts (e : OutEnv) (i : Nat) (hoc : e.openOc = .ok i)
    (hc : e.createOk = true) (s : Sys) (b : Nat) :
    (out_write_attempt e s b).2.1 = e.writeRet ∧
    (out_write_attempt e s b).1.outS.standby = false := by
  rw [out_write_attempt, hoc]
  by_cases hsb : s.outS.standby
  · rw [if_pos hsb]
    have h0 := start_output_ok_parts i s
    rcases hst : start_output_stream (OpenOutcome.ok i) s with ⟨s1, r⟩
    rw [hst] at h0
    obtain ⟨hr, _, _, _⟩ := h0
    simp only at hr
    subst hr
    simp only [bne_self_eq_false, Bool.false_eq_true, if_false]
    have hb := out_write_body_parts e hc
      { s1 with outS := { s1.outS with standby := false } } 4 (b / 4)
      (RESAMPLER_BUFFER_SIZE / 4)
    exact ⟨hb.1, by rw [hb.2]⟩
  · rw [if_neg hsb]
    have hb := out_write_body_parts e hc s 4 (b / 4) (RESAMPLER_BUFFER_SIZE / 4)
    refine ⟨hb.1, ?_⟩
    rw [hb.2]
    simpa using hsb

/-! ### Rate-family lemmas for C4 -/

/-- On the rates the code can actually put in a `pcm_config` (44100 for the
default output/input geometries, 48000 for HDMI, 8000 for SCO), the code's
asymmetric test `new%f == 0 && old%f != 0` coincides with the claim's
symmetric "one divisible, the other not" characterization. -/
theorem rate_incompat_eq_claim (a b : Nat)
    (ha : a = 44100 ∨ a = 48000 ∨ a = 8000)
    (hb : b = 44100 ∨ b = 48000 ∨ b = 8000) :
    rateIncompat a b = claimIncompat a b := by
  rcases ha with rfl | rfl | rfl <;> rcases hb with rfl | rfl | rfl <;> decide

theorem outRateSel_cases (s : Sys)
    (hor : s.outS.pcm_config.rate = 44100 ∨ s.outS.pcm_config.rate = 48000) :
    outRateSel s = 44100 ∨ outRateSel s = 48000 := by
  unfold outRateSel
  split_ifs
  · exact Or.inr rfl
  · exact hor

theorem inRateSel_cases (s : Sys) : inRateSel s = 8000 ∨ inRateSel s = 44100 := by
  unfold inRateSel
  split_ifs
  · exact Or.inl rfl
  · exact Or.inr rfl

set_option maxHeartbeats 1000000 in
/-- C4: whenever a stream start finds the opposite-direction stream active
at a rate in the incompatible family (one rate divisible by 8000 and the
other not, or one divisible by 11025 and the other not — evaluated on the
rates the code can actually select: 44100/48000 for output, 44100/8000 for
input), the opposite stream is forced into standby (endpoint closed, active
reference cleared); with compatible families or no active opposite stream
it is left untouched.  The forcing is a single `do_in_standby` /
`do_out_standby` executed before the `pcm_open` call — the conclusions hold
for both open outcomes — and it cannot repeat: it clears the active
reference, and a start that finds the reference cleared leaves the opposite
stream unchanged (third conjunct of each half).  The hypotheses
`active → ¬standby` are the coordinator's reachability invariant (a stream
is recorded active only while open). -/
theorem c4_incompatible_family_forces_standby (oc : OpenOutcome) (s : Sys)
    (hor : s.outS.pcm_config.rate = 44100 ∨ s.outS.pcm_config.rate = 48000)
    (hir : s.inS.pcm_config.rate = 44100 ∨ s.inS.pcm_config.rate = 8000)
    (hin : s.active_in = true → s.inS.standby = false)
    (hout : s.active_out = true → s.outS.standby = false) :
    ((s.active_in = true →
        claimIncompat (outRateSel s) s.inS.pcm_config.rate = true →
        (start_output_stream oc s).1.inS.standby = true ∧
        (start_output_stream oc s).1.inS.pcm = Pcm.null ∧
        (start_output_stream oc s).1.active_in = false) ∧
      (s.active_in = true →
        claimIncompat (outRateSel s) s.inS.pcm_config.rate = false →
        (start_output_stream oc s).1.inS = s.inS ∧
        (start_output_stream oc s).1.active_in = s.active_in) ∧
      (s.active_in = false →
        (start_output_stream oc s).1.inS = s.inS ∧
        (start_output_stream oc s).1.active_in = false))
    ∧
    ((s.active_out = true →
        claimIncompat (inRateSel s) s.outS.pcm_config.rate = true →
        (start_input_stream oc s).1.outS.standby = true ∧
        (start_input_stream oc s).1.outS.pcm = Pcm.null ∧
        (start_input_stream oc s).1.active_out = false) ∧
      (s.active_out = true →
        claimIncompat (inRateSel s) s.outS.pcm_config.rate = false →
        (start_input_stream oc s).1.outS = s.outS ∧
        (start_input_stream oc s).1.active_out = s.active_out) ∧
      (s.active_out = false →
        (start_input_stream oc s).1.outS = s.outS ∧
        (start_input_stream oc s).1.active_out = false)) := by
  have hrc : rateIncompat (outRateSel s) s.inS.pcm_config.rate =
      claimIncompat (outRateSel s) s.inS.pcm_config.rate :=
    rate_incompat_eq_claim _ _
      (by rcases outRateSel_cases s hor with h | h <;> simp [h])
      (by rcases hir with h | h <;> simp [h])
  have hrci : rateIncompat (inRateSel s) s.outS.pcm_config.rate =
      claimIncompat (inRateSel s) s.outS.pcm_config.rate :=
    rate_incompat_eq_claim _ _
      (by rcases inRateSel_cases s with h | h <;> simp [h])
      (by rcases hor with h | h <;> simp [h])
  constructor
  · refine ⟨fun hai hcl => ?_, fun hai hcl => ?_, fun hai => ?_⟩
    · have hcond : (s.active_in && rateIncompat (outRateSel s) s.inS.pcm_config.rate) = true := by
        rw [hai, hrc, hcl, Bool.true_and]
      rcases start_output_in_part oc s with ⟨_, _, h3⟩ | ⟨h1, h2, _⟩
      · rw [hcond] at h3; exact absurd h3 (by simp)
      · have hsb := hin hai
        rw [h1, h2]
        simp [do_in_standby, hsb]
    · have hcond : (s.active_in && rateIncompat (outRateSel s) s.inS.pcm_config.rate) = false := by
        rw [hai, hrc, hcl, Bool.true_and]
      rcases start_output_in_part oc s with ⟨h1, h2, _⟩ | ⟨_, _, h3⟩
      · exact ⟨h1, h2⟩
      · rw [hcond] at h3; exact absurd h3 (by simp)
    · have hcond : (s.active_in && rateIncompat (outRateSel s) s.inS.pcm_config.rate) = false := by
        rw [hai, Bool.false_and]
      rcases start_output_in_part oc s with ⟨h1, h2, _⟩ | ⟨_, _, h3⟩
      · rw [h1, h2, hai]; exact ⟨rfl, rfl⟩
      · rw [hcond] at h3; exact absurd h3 (by simp)
  · refine ⟨fun hao hcl => ?_, fun hao hcl => ?_, fun hao => ?_⟩
    · have hcond : (s.active_out && rateIncompat (inRateSel s) s.outS.pcm_config.rate) = true := by
        rw [hao, hrci, hcl, Bool.true_and]
      rcases start_input_out_part oc s with ⟨_, _, h3⟩ | ⟨h1, h2, _⟩
      · rw [hcond] at h3; exact absurd h3 (by simp)
      · have hsb := hout hao
        rw [h1, h2]
        simp [do_out_standby, hsb]
    · have hcond : (s.active_out && rateIncompat (inRateSel s) s.outS.pcm_config.rate) = false := by
        rw [hao, hrci, hcl, Bool.true_and]
      rcases start_input_out_part oc s with ⟨h1, h2, _⟩ | ⟨_, _, h3⟩
      · exact ⟨h1, h2⟩
      · rw [hcond] at h3; exact absurd h3 (by simp)
    · have hcond : (s.active_out && rateIncompat (inRateSel s) s.outS.pcm_config.rate) = false := by
        rw [hao, Bool.false_and]
      rcases start_input_out_part oc s with ⟨h1, h2, _⟩ | ⟨_, _, h3⟩
      · rw [h1, h2, hao]; exact ⟨rfl, rfl⟩
      · rw [hcond] at h3; exact absurd h3 (by simp)

/-- C4 witness: SCO input (8000 family) started while the 44100 output is
active: the output is forced to standby with its handle nulled and the
active-output reference cleared. -/
theorem c4_incompatible_family_forces_standby_witness :
    claimIncompat (inRateSel sysScoIn) sysScoIn.outS.pcm_config.rate = true ∧
    ((start_input_stream (.ok 1) sysScoIn).1.outS.standby = true ∧
      (start_input_stream (.ok 1) sysScoIn).1.outS.pcm = Pcm.null ∧
      (start_input_stream (.ok 1) sysScoIn).1.active_out = false) :=
  ⟨by decide,
    (c4_incompatible_family_forces_standby (.ok 1) sysScoIn
      (Or.inl (by decide)) (Or.inl (by decide)) (by decide) (by decide)).2.1
      (by decide) (by decide)⟩

/-- C2: broken-pipe recovery.  First conjunct: forcing an active stream to
standby via `do_out_standby` closes the endpoint handle (nulls it) and
clears the coordinator's active-output reference.  Second conjunct: for ANY
number `n` of consecutive `-EPIPE` endpoint writes followed by one
successful attempt, `out_write` performs exactly `n` standby-and-retry
recoveries (the `goto do_over` loop has no retry limit), ends with the
stream out of standby, and returns the full requested byte count `b` to the
caller — the frame count reported written equals the frame count
requested. -/
theorem c2_broken_pipe_unlimited_retry :
    (∀ t : Sys, t.outS.standby = false →
      (do_out_standby t).outS.pcm = Pcm.null ∧ (do_out_standby t).outS.standby = true ∧
      (do_out_standby t).active_out = false)
    ∧ (∀ (n : Nat) (s : Sys) (b : Nat),
      (out_write (List.replicate n epipeEnv ++ [succEnv]) s b).map outWriteSummary =
        some ((b : Int), n, false)) := by
  constructor
  · intro t ht
    simp [do_out_standby, ht]
  · intro n
    induction n with
    | zero =>
      intro s b
      obtain ⟨hr, hsb⟩ := out_write_attempt_ok_parts succEnv 0 rfl rfl s b
      rcases hatt : out_write_attempt succEnv s b with ⟨s1, r, effs⟩
      rw [hatt] at hr hsb
      simp only at hr hsb
      subst hr
      simp only [List.replicate, List.nil_append, out_write, hatt]
      have hne : (succEnv.writeRet == -EPIPE) = false := by decide
      simp [hne, outWriteSummary, hsb]
    | succ n ih =>
      intro s b
      obtain ⟨hr, _⟩ := out_write_attempt_ok_parts epipeEnv 0 rfl rfl s b
      rcases hatt : out_write_attempt epipeEnv s b with ⟨s1, r, effs⟩
      rw [hatt] at hr
      simp only at hr
      subst hr
      obtain ⟨r2, hr2, hf2⟩ := Option.map_eq_some'.mp (ih (do_out_standby s1) b)
      rcases r2 with ⟨s2, rv, k, effs2⟩
      have hrv : rv = (b : Int) := congrArg (fun p => p.1) hf2
      have hk : k = n := congrArg (fun p => p.2.1) hf2
      have hs2 : s2.outS.standby = false := congrArg (fun p => p.2.2) hf2
      simp only [List.replicate_succ, List.cons_append, out_write, hatt]
      have heq : (epipeEnv.writeRet == -EPIPE) = true := by decide
      rw [heq, if_pos rfl]
      simp only [List.append_eq]
      rw [hr2]
      simp [outWriteSummary, hrv, hk, hs2]

/-- C2 witness: two broken-pipe failures then success on the fresh system:
the write reports all 4096 requested bytes after exactly 2 recoveries, and
forcing the active stream to standby nulls the handle and clears the
active-output reference. -/
theorem c2_broken_pipe_unlimited_retry_witness :
    (sysOutUp.outS.standby = false ∧ (do_out_standby sysOutUp).outS.pcm = Pcm.null ∧
      (do_out_standby sysOutUp).outS.standby = true ∧
      (do_out_standby sysOutUp).active_out = false) ∧
    (out_write (List.replicate 2 epipeEnv ++ [succEnv]) sys0 4096).map outWriteSummary =
      some ((4096 : Int), 2, false) :=
  ⟨⟨by decide,
      (c2_broken_pipe_unlimited_retry.1 sysOutUp (by decide)).1,
      (c2_broken_pipe_unlimited_retry.1 sysOutUp (by decide)).2.1,
      (c2_broken_pipe_unlimited_retry.1 sysOutUp (by decide)).2.2⟩,
    c2_broken_pipe_unlimited_retry.2 2 sys0 4096⟩

/-! ### Helper lemmas for the handle/standby invariants (C6) -/

theorem nis_do_out_standby (s : Sys) (h : NullImpStandby s) :
    NullImpStandby (do_out_standby s) := by
  unfold do_out_standby
  split_ifs
  · exact h
  · exact ⟨fun _ => rfl, h.2⟩

theorem nis_do_in_standby (s : Sys) (h : NullImpStandby s) :
    NullImpStandby (do_in_standby s) := by
  unfold do_in_standby
  split_ifs
  · exact h
  · exact ⟨h.1, fun _ => rfl⟩

theorem equiv_do_out_standby (s : Sys) (h : PcmStandbyEquiv s) :
    PcmStandbyEquiv (do_out_standby s) := by
  unfold do_out_standby
  split_ifs
  · exact h
  · exact ⟨by simp, h.2⟩

theorem equiv_do_in_standby (s : Sys) (h : PcmStandbyEquiv s) :
    PcmStandbyEquiv (do_in_standby s) := by
  unfold do_in_standby
  split_ifs
  · exact h
  · exact ⟨h.1, by simp⟩

theorem nis_start_output (oc : OpenOutcome) (s : Sys) (h : NullImpStandby s) :
    NullImpStandby (start_output_stream oc s).1 := by
  constructor
  · rcases oc with i | i
    · rw [(start_output_ok_parts i s).2.1]; simp
    · rw [(start_output_fail_parts i s).2.1]; simp
  · rcases start_output_in_part oc s with ⟨hi, _, _⟩ | ⟨hi, _, _⟩
    · rw [hi]; exact h.2
    · rw [hi]
      exact (nis_do_in_standby s h).2

theorem nis_start_input (oc : OpenOutcome) (s : Sys) (h : NullImpStandby s) :
    NullImpStandby (start_input_stream oc s).1 := by
  constructor
  · rcases start_input_out_part oc s with ⟨ho, _, _⟩ | ⟨ho, _, _⟩
    · rw [ho]; exact h.1
    · rw [ho]
      exact (nis_do_out_standby s h).1
  · rcases oc with i | i
    · rw [(start_input_ok_parts i s).2.1]; simp
    · rw [(start_input_fail_parts i s).2.1]; simp

theorem out_write_body_state (e : OutEnv) (s : Sys) (fs inf outf : Nat) :
    (out_write_body e s fs inf outf).1 = s ∨
    (out_write_body e s fs inf outf).1 =
      { s with outS := { s.outS with hasResampler := true } } := by
  unfold out_write_body
  split_ifs <;> simp

theorem out_write_body_fields (e : OutEnv) (s : Sys) (fs inf outf : Nat) :
    (out_write_body e s fs inf outf).1.outS.pcm = s.outS.pcm ∧
    (out_write_body e s fs inf outf).1.outS.standby = s.outS.standby ∧
    (out_write_body e s fs inf outf).1.inS = s.inS := by
  rcases out_write_body_state e s fs inf outf with hb | hb <;> rw [hb] <;> exact ⟨rfl, rfl, rfl⟩

theorem nis_out_write_attempt (e : OutEnv) (s : Sys) (b : Nat) (h : NullImpStandby s) :
    NullImpStandby (out_write_attempt e s b).1 := by
  rw [out_write_attempt]
  by_cases hsb : s.outS.standby
  · rw [if_pos hsb]
    rcases hoc : e.openOc with i | i
    · have h0 := start_output_ok_parts i s
      have hn := nis_start_output (OpenOutcome.ok i) s h
      rcases hst : start_output_stream (OpenOutcome.ok i) s with ⟨s1, r⟩
      rw [hst] at h0 hn
      obtain ⟨hr, hpcm, _, _⟩ := h0
      simp only at hr hpcm
      subst hr
      simp only [bne_self_eq_false, Bool.false_eq_true, if_false]
      have hf := out_write_body_fields e
        { s1 with outS := { s1.outS with standby := false } } 4 (b / 4)
        (RESAMPLER_BUFFER_SIZE / 4)
      constructor
      · intro hx
        rw [hf.1] at hx
        dsimp only at hx
        rw [hpcm] at hx
        exact absurd hx (by simp)
      · rw [hf.2.2]
        exact hn.2
    · have h0 := start_output_fail_parts i s
      have hn := nis_start_output (OpenOutcome.notReady i) s h
      rcases hst : start_output_stream (OpenOutcome.notReady i) s with ⟨s1, r⟩
      rw [hst] at h0 hn
      obtain ⟨hr, _, _, _⟩ := h0
      simp only at hr
      subst hr
      have hne : ((-ENOMEM : Int) != 0) = true := by decide
      simp only [hne, if_true]
      exact hn
  · rw [if_neg hsb]
    have hf := out_write_body_fields e s 4 (b / 4) (RESAMPLER_BUFFER_SIZE / 4)
    constructor
    · intro hx
      rw [hf.1] at hx
      rw [hf.2.1]
      exact h.1 hx
    · rw [hf.2.2]
      exact h.2

theorem equiv_out_write_attempt (e : OutEnv) (i : Nat) (hoc : e.openOc = .ok i)
    (s : Sys) (b : Nat) (h : PcmStandbyEquiv s) :
    PcmStandbyEquiv (out_write_attempt e s b).1 := by
  rw [out_write_attempt, hoc]
  by_cases hsb : s.outS.standby
  · rw [if_pos hsb]
    have h0 := start_output_ok_parts i s
    have hinpart := start_output_in_part (OpenOutcome.ok i) s
    rcases hst : start_output_stream (OpenOutcome.ok i) s with ⟨s1, r⟩
    rw [hst] at h0 hinpart
    obtain ⟨hr, hpcm, _, _⟩ := h0
    simp only at hr hpcm hinpart
    subst hr
    simp only [bne_self_eq_false, Bool.false_eq_true, if_false]
    have hf := out_write_body_fields e
      { s1 with outS := { s1.outS with standby := false } } 4 (b / 4)
      (RESAMPLER_BUFFER_SIZE / 4)
    constructor
    · rw [hf.1, hf.2.1]
      dsimp only
      rw [hpcm]
      simp
    · rw [hf.2.2]
      dsimp only
      rcases hinpart with ⟨h1, _, _⟩ | ⟨h1, _, _⟩
      · rw [h1]; exact h.2
      · rw [h1]
        exact (equiv_do_in_standby s h).2
  · rw [if_neg hsb]
    have hf := out_write_body_fields e s 4 (b / 4) (RESAMPLER_BUFFER_SIZE / 4)
    constructor
    · rw [hf.1, hf.2.1]
      exact h.1
    · rw [hf.2.2]
      exact h.2

theorem nis_out_write (es : List OutEnv) (b : Nat) :
    ∀ (s : Sys) (r : Sys × Int × Nat × List Effect), NullImpStandby s →
      out_write es s b = some r → NullImpStandby r.1 := by
  induction es with
  | nil =>
    intro s r _ hw
    simp [out_write] at hw
  | cons e rest ih =>
    intro s r h hw
    have ha := nis_out_write_attempt e s b h
    rcases hatt : out_write_attempt e s b with ⟨s1, r1, effs⟩
    rw [hatt] at ha
    simp only at ha
    rw [out_write, hatt] at hw
    simp only at hw
    by_cases hep : (r1 == -EPIPE) = true
    · rw [if_pos hep] at hw
      rcases hw2 : out_write rest (do_out_standby s1) b with _ | r2
      · rw [hw2] at hw; exact absurd hw (by simp)
      · have hr2 := ih (do_out_standby s1) r2 (nis_do_out_standby s1 ha) hw2
        rw [hw2] at hw
        rcases r2 with ⟨s2, rv, k, effs2⟩
        simp only [Option.some.injEq] at hw
        rw [← hw]
        exact hr2
    · rw [if_neg hep] at hw
      simp only [Option.some.injEq] at hw
      rw [← hw]
      exact ha

theorem equiv_out_write (es : List OutEnv) (b : Nat) :
    ∀ (s : Sys) (r : Sys × Int × Nat × List Effect), PcmStandbyEquiv s → AllOkOut es →
      out_write es s b = some r → PcmStandbyEquiv r.1 := by
  induction es with
  | nil =>
    intro s r _ _ hw
    simp [out_write] at hw
  | cons e rest ih =>
    intro s r h hok hw
    obtain ⟨i, hoc⟩ := hok e (List.mem_cons_self e rest)
    have hokr : AllOkOut rest := fun x hx => hok x (List.mem_cons_of_mem e hx)
    have ha := equiv_out_write_attempt e i hoc s b h
    rcases hatt : out_write_attempt e s b with ⟨s1, r1, effs⟩
    rw [hatt] at ha
    simp only at ha
    rw [out_write, hatt] at hw
    simp only at hw
    by_cases hep : (r1 == -EPIPE) = true
    · rw [if_pos hep] at hw
      rcases hw2 : out_write rest (do_out_standby s1) b with _ | r2
      · rw [hw2] at hw; exact absurd hw (by simp)
      · have hr2 := ih (do_out_standby s1) r2 (equiv_do_out_standby s1 ha) hokr hw2
        rw [hw2] at hw
        rcases r2 with ⟨s2, rv, k, effs2⟩
        simp only [Option.some.injEq] at hw
        rw [← hw]
        exact hr2
    · rw [if_neg hep] at hw
      simp only [Option.some.injEq] at hw
      rw [← hw]
      exact ha

theorem nis_in_read (e : InEnv) (s : Sys) (b : Nat) (buf : List Int)
    (h : NullImpStandby s) : NullImpStandby (in_read e s b buf).1 := by
  rw [in_read]
  by_cases hsb : s.inS.standby
  · rw [if_pos hsb]
    rcases hoc : e.openOc with i | i
    · have h0 := start_input_ok_parts i s
      have hn := nis_start_input (OpenOutcome.ok i) s h
      rcases hst : start_input_stream (OpenOutcome.ok i) s with ⟨s1, r⟩
      rw [hst] at h0 hn
      obtain ⟨hr, hpcm, _, _⟩ := h0
      simp only at hr hpcm
      subst hr
      simp only [beq_self_eq_true, if_true, in_read_body]
      split_ifs <;>
        exact ⟨hn.1, by intro hx; dsimp only at hx; rw [hpcm] at hx; exact absurd hx (by simp)⟩
    · have h0 := start_input_fail_parts i s
      have hn := nis_start_input (OpenOutcome.notReady i) s h
      rcases hst : start_input_stream (OpenOutcome.notReady i) s with ⟨s1, r⟩
      rw [hst] at h0 hn
      obtain ⟨hr, _, _, _⟩ := h0
      simp only at hr
      subst hr
      have hne : ((-ENOMEM : Int) == 0) = false := by decide
      simp only [hne, Bool.false_eq_true, if_false]
      exact hn
  · rw [if_neg hsb]
    simp only [in_read_body]
    split_ifs <;> exact h

theorem equiv_in_read (e : InEnv) (i : Nat) (hoc : e.openOc = .ok i) (s : Sys)
    (b : Nat) (buf : List Int) (h : PcmStandbyEquiv s) :
    PcmStandbyEquiv (in_read e s b buf).1 := by
  rw [in_read, hoc]
  by_cases hsb : s.inS.standby
  · rw [if_pos hsb]
    have h0 := start_input_ok_parts i s
    have houtpart := start_input_out_part (OpenOutcome.ok i) s
    rcases hst : start_input_stream (OpenOutcome.ok i) s with ⟨s1, r⟩
    rw [hst] at h0 houtpart
    obtain ⟨hr, hpcm, _, _⟩ := h0
    simp only at hr hpcm houtpart
    subst hr
    simp only [beq_self_eq_true, if_true, in_read_body]
    have hout : s1.outS.pcm = Pcm.null ↔ s1.outS.standby = true := by
      rcases houtpart with ⟨h1, _, _⟩ | ⟨h1, _, _⟩
      · rw [h1]; exact h.1
      · rw [h1]
        exact (equiv_do_out_standby s h).1
    split_ifs <;>
      exact ⟨hout, by dsimp only; rw [hpcm]; simp⟩
  · rw [if_neg hsb]
    simp only [in_read_body]
    split_ifs <;> exact h

/-- C6 counterexample: starting from the fresh system (handle NULL, standby,
equivalence holds), an `out_write` whose endpoint open fails leaves the
stream in standby but with the stale non-NULL handle `pcm_open` returned
(the code calls `pcm_close` without clearing `out->pcm`), so the claimed
equivalence `pcm == NULL ⇔ standby` is violated on exactly the failed-open
path the claim includes. -/
theorem c6_counterexample :
    PcmStandbyEquiv sys0 ∧
    (out_write [openFailEnv] sys0 4096).isSome = true ∧
    ¬ PcmStandbyEquiv ((out_write [openFailEnv] sys0 4096).getD (sysDummy, 0, 0, [])).1 := by
  decide

/-- C6 (amended): the direction "NULL handle implies standby" (equivalently:
an active stream always holds a non-NULL handle) is an invariant of every
operation — explicit standby, close, stream start (both open outcomes),
`out_write` (any environment trace), `in_read`.  The full equivalence
`pcm == NULL ⇔ standby` is additionally preserved by standby, close, and by
every write/read whose endpoint opens succeed; only a failed open breaks it,
leaving standby set with a stale non-NULL handle. -/
theorem c6_null_handle_invariant :
    (∀ s : Sys, NullImpStandby s →
      NullImpStandby (out_standby s).1 ∧ NullImpStandby (in_standby s).1 ∧
      NullImpStandby (adev_close_output_stream s) ∧
      NullImpStandby (adev_close_input_stream s))
    ∧ (∀ (oc : OpenOutcome) (s : Sys), NullImpStandby s →
      NullImpStandby (start_output_stream oc s).1 ∧
      NullImpStandby (start_input_stream oc s).1)
    ∧ (∀ (es : List OutEnv) (s : Sys) (b : Nat) (r : Sys × Int × Nat × List Effect),
      NullImpStandby s → out_write es s b = some r → NullImpStandby r.1)
    ∧ (∀ (e : InEnv) (s : Sys) (b : Nat) (buf : List Int),
      NullImpStandby s → NullImpStandby (in_read e s b buf).1)
    ∧ (∀ s : Sys, PcmStandbyEquiv s →
      PcmStandbyEquiv (out_standby s).1 ∧ PcmStandbyEquiv (in_standby s).1 ∧
      PcmStandbyEquiv (adev_close_output_stream s) ∧
      PcmStandbyEquiv (adev_close_input_stream s))
    ∧ (∀ (es : List OutEnv) (s : Sys) (b : Nat) (r : Sys × Int × Nat × List Effect),
      PcmStandbyEquiv s → AllOkOut es → out_write es s b = some r →
      PcmStandbyEquiv r.1)
    ∧ (∀ (e : InEnv) (i : Nat) (s : Sys) (b : Nat) (buf : List Int),
      PcmStandbyEquiv s → e.openOc = .ok i → PcmStandbyEquiv (in_read e s b buf).1) := by
  refine ⟨fun s h => ⟨nis_do_out_standby s h, nis_do_in_standby s h, ?_, ?_⟩,
    fun oc s h => ⟨nis_start_output oc s h, nis_start_input oc s h⟩,
    fun es s b r h hw => nis_out_write es b s r h hw,
    fun e s b buf h => nis_in_read e s b buf h,
    fun s h => ⟨equiv_do_out_standby s h, equiv_do_in_standby s h, ?_, ?_⟩,
    fun es s b r h hok hw => equiv_out_write es b s r h hok hw,
    fun e i s b buf h hoc => equiv_in_read e i hoc s b buf h⟩
  · exact ⟨(nis_do_out_standby s h).1, (nis_do_out_standby s h).2⟩
  · exact ⟨(nis_do_in_standby s h).1, (nis_do_in_standby s h).2⟩
  · exact ⟨(equiv_do_out_standby s h).1, (equiv_do_out_standby s h).2⟩
  · exact ⟨(equiv_do_in_standby s h).1, (equiv_do_in_standby s h).2⟩

/-- C6 witness: instantiation of the invariant theorem: the null-implies-
standby invariant survives an `out_write` on the fresh system whose open
fails (and the counterexample above shows the full equivalence does not). -/
theorem c6_null_handle_invariant_witness :
    NullImpStandby sys0 ∧
    NullImpStandby ((out_write [openFailEnv] sys0 4096).getD (sysDummy, 0, 0, [])).1 :=
  ⟨by decide,
    c6_null_handle_invariant.2.2.1 [openFailEnv] sys0 4096
      ((out_write [openFailEnv] sys0 4096).getD (sysDummy, 0, 0, []))
      (by decide) (by decide)⟩

/-- C7 witness: one concrete pull (read one 960-frame period, grant 500,
release 500) keeps `frames_in = 460 ≤ 960`. -/
theorem c7_buffer_provider_invariant_witness :
    inUp.frames_in ≤ inUp.pcm_config.period_size ∧
    (release_buffer 500 (get_next_buffer 0 500 inUp).1).frames_in ≤
      (release_buffer 500 (get_next_buffer 0 500 inUp).1).pcm_config.period_size :=
  ⟨by decide,
    (c7_buffer_provider_invariant.2.2.2.2 inUp
      (release_buffer 500 (get_next_buffer 0 500 inUp).1)
      (PullSeq.step 0 500 500 (PullSeq.refl inUp) (by decide) rfl)
      (by decide) (by decide)).1⟩

end AudioHw
